import Mathlib

/-!
Shallow embedding of `src/assets/scripts/aircraft/AircraftConflict.js` from the
openscope repository: the pairwise aircraft conflict/violation tracker.

Each method of the `AircraftConflict` class is embedded as a Lean function on an
explicit tracker state (`Tracker`, the mutable `this`-fields) together with a
read-only per-tick environment (`Env`, the two aircraft's current state and the
global accessors `airport_get()` / `game_time()`).  Side effects on
collaborators (ui_log, score counters, hit flags, runway-queue and conflict
deregistration) are returned as an explicit list of `Effect`s.  A JavaScript
`TypeError` (property access on `undefined`) is modelled as `none` of an
`Option` result.
-/

open scoped Classical

noncomputable section

namespace OpenScope

/-- Aircraft interface as read by `AircraftConflict` (spec section 6): position
(2D vector, km), altitude (ft), ground track (radians), callsign, takeoff
timestamp (s), precision-guidance / landed / visible / taxiing predicates and
assigned arrival/departure runway identifiers (nullable). -/
structure Aircraft where
  position : ℝ × ℝ
  altitude : ℝ
  groundTrack : ℝ
  callsign : String
  takeoffTime : ℝ
  isPrecisionGuided : Bool
  isLanded : Bool
  isVisible : Bool
  isTaxiing : Bool
  rwy_arr : Option String
  rwy_dep : Option String

/-- One entry of the airport's runway-relationship metadata table
(`airport_get().metadata.rwy[id1][id2]`). -/
structure RunwayRelationship where
  parallel : Bool
  lateral_dist : ℝ

/-- Read-only environment of one `update()` tick: the two aircraft the tracker
holds references to, and the globals `airport_get()` (elevation, runway list,
runway lookup, runway-relationship metadata) and `game_time()`.
`getRunway` returns the canonical runway (identified here by its canonical
identifier) for an assigned-runway identifier, `none` when the lookup yields no
match (JavaScript `null`); `rwyMetadata` returns `none` when the table has no
entry for the pair (JavaScript `undefined`). -/
structure Env where
  aircraft0 : Aircraft
  aircraft1 : Aircraft
  elevation : ℝ
  runways : List String
  getRunway : Option String → Option String
  rwyMetadata : Option String → Option String → Option RunwayRelationship
  gameTime : ℝ

/-- The tracker's `conflicts` map.  The JavaScript object is key-dynamic; the
keys ever written are `runwayCollision`, `proximityConflict` and — only by the
vertical-separation gate at source line 176 — `proximityViolation`.  An absent
key reads as false. -/
structure Conflicts where
  runwayCollision : Bool := false
  proximityConflict : Bool := false
  proximityViolation : Bool := false

/-- The tracker's `violations` map; the only key ever written is
`proximityViolation` (source line 262/263). -/
structure Violations where
  proximityViolation : Bool := false

/-- The mutable state of one `AircraftConflict` instance. -/
structure Tracker where
  distance : ℝ
  distance_delta : ℝ
  altitude : ℝ
  collided : Bool
  conflicts : Conflicts
  violations : Violations

/-- Observable side effects on the collaborators (ui_log, score sink, aircraft
hit flags, runway departure queues, conflict deregistration).  Aircraft are
referred to by index (0 = `this.aircraft[0]`), runway ends by 0/1. -/
inductive Effect where
  | uiLog (warn : Bool) (msg : String)
  | scoreHit
  | scoreWarning
  | setHit (ac : Nat)
  | removeQueue (runway : String) (endIdx : Nat) (ac : Nat)
  | removeConflict (ac other : Nat)

/-- Modelled from the spec: `vsub` from `math/vector` (outside `src/`) —
componentwise 2D vector subtraction. -/
def vsub (a b : ℝ × ℝ) : ℝ × ℝ := (a.1 - b.1, a.2 - b.2)

/-- Modelled from the spec: `vlen` from `math/vector` (outside `src/`) —
Euclidean length of a 2D vector ("Euclidean horizontal distance between
position vectors", spec section 4.1). -/
def vlen (v : ℝ × ℝ) : ℝ := Real.sqrt (v.1 ^ 2 + v.2 ^ 2)

/-- Modelled from the spec: `degreesToRadians` from
`utilities/unitConverters` (outside `src/`). -/
def degreesToRadians (d : ℝ) : ℝ := d * (Real.pi / 180)

/-- Modelled from the spec: `km_ft` (outside `src/`) — kilometres to feet
("the physical lateral distance between runway centerlines, converted to
feet", spec section 4.6). -/
def km_ft (km : ℝ) : ℝ := km * 1000 / 0.3048

/-- Modelled from the spec: `vturn` (outside `src/`) — the unit
track-direction vector of a compass ground track ("treat each aircraft's
position and unit track-direction as a parametric ray", spec section 4.6). -/
def vturn (track : ℝ) : ℝ × ℝ := (Real.sin track, Real.cos track)

/-- Modelled from the spec: `angle_offset` (outside `src/`) — the signed
angular difference between two headings, normalized so that its absolute value
lies in [0, π] ("the absolute angular difference between the two aircraft's
ground tracks, normalized to [0°, 180°]", spec section 4.6). -/
def angle_offset (a b : ℝ) : ℝ :=
  (a - b) - 2 * Real.pi * (round ((a - b) / (2 * Real.pi)) : ℝ)

/-- `checkCollision()` (source lines 109-136): skip if either aircraft is
landed; otherwise iff distance < 0.05 km, vertical separation < 160 ft and
both are visible, set `collided`, log, count a hit, set both hit flags and
clear both ends of every runway queue. -/
def checkCollision (env : Env) (s : Tracker) : Tracker × List Effect :=
  if env.aircraft0.isLanded ∨ env.aircraft1.isLanded then (s, [])
  else if (s.distance < 0.05 ∧ s.altitude < 160) ∧
      (env.aircraft0.isVisible ∧ env.aircraft1.isVisible) then
    ({ s with collided := true },
      [Effect.uiLog true (env.aircraft0.callsign ++ " collided with "
          ++ env.aircraft1.callsign),
        Effect.scoreHit, Effect.setHit 0, Effect.setHit 1]
      ++ (env.runways.map (fun rwy =>
          [Effect.removeQueue rwy 0 0, Effect.removeQueue rwy 0 1,
            Effect.removeQueue rwy 1 0, Effect.removeQueue rwy 1 1])).flatten)
  else (s, [])

/-- `checkRunwayCollision()` (source lines 141-167).  Note the source compares
`airport.getRunway(aircraft[1].rwy_dep) === airport.getRunway(aircraft[0].rwy_dep)`:
JavaScript strict equality of the two lookup results, which also holds when
both lookups return `null`. -/
def checkRunwayCollision (env : Env) (s : Tracker) : Tracker × List Effect :=
  if (¬env.aircraft0.isTaxiing ∧ ¬env.aircraft1.isTaxiing) ∧
      env.aircraft0.rwy_dep ≠ none ∧
      env.aircraft0.rwy_dep ≠ env.aircraft1.rwy_dep ∧
      env.getRunway env.aircraft1.rwy_dep = env.getRunway env.aircraft0.rwy_dep ∧
      s.distance < 10 then
    if ¬s.conflicts.runwayCollision then
      ({ s with conflicts := { s.conflicts with runwayCollision := true } },
        [Effect.uiLog true (env.aircraft0.callsign
            ++ " appears on a collision course with " ++ env.aircraft1.callsign
            ++ " on the same runway"),
          Effect.scoreWarning])
    else (s, [])
  else ({ s with conflicts := { s.conflicts with runwayCollision := false } }, [])

/-- The parallel-approach band selection (source lines 198-208): the applicable
lateral separation minimum (km) as a function of the lateral distance between
the two parallel runways, in feet.  The final fallback is the initial value of
the hoisted `applicableLatSepMin` variable (5.556). -/
def parallelLatSepMin (feetBetween : ℝ) : ℝ :=
  if feetBetween < 2500 then 5.556
  else if 2500 ≤ feetBetween ∧ feetBetween ≤ 3600 then 1.852
  else if 3600 < feetBetween ∧ feetBetween ≤ 4300 then 2.778
  else if 4300 < feetBetween ∧ feetBetween ≤ 9000 then 3.704
  else if 9000 < feetBetween then 5.556
  else 5.556

/-- Source lines 186-218: the applicable lateral separation minimum together
with `disableNotices`.  When both aircraft are precision-guided onto different
arrival runways, the source reads
`airport_get().metadata.rwy[a1.rwy_arr][a2.rwy_arr].parallel`; a missing table
entry makes the relationship `undefined` and the `.parallel` access raises a
TypeError, modelled as `none`. -/
def latSepParams (env : Env) : Option (ℝ × Bool) :=
  if (env.aircraft0.isPrecisionGuided ∧ env.aircraft1.isPrecisionGuided) ∧
      env.aircraft0.rwy_arr ≠ env.aircraft1.rwy_arr then
    match env.rwyMetadata env.aircraft0.rwy_arr env.aircraft1.rwy_arr with
    | none => none
    | some rel =>
      if rel.parallel then some (parallelLatSepMin (km_ft rel.lateral_dist), true)
      else some (5.556, false)
  else some (5.556, false)

/-- The determinant of the two unit track-direction vectors
(`bd[0] * ad[1] - bd[1] * ad[0]`, source line 242). -/
def convergenceDet (a1 a2 : Aircraft) : ℝ :=
  (vturn a2.groundTrack).1 * (vturn a1.groundTrack).2
    - (vturn a2.groundTrack).2 * (vturn a1.groundTrack).1

/-- The ray-intersection parameters `u`, `v` of the crossing-courses test
(source lines 238-244): each aircraft's signed distance from the point of
convergence along its ground-track ray, obtained by determinant elimination. -/
def rayParams (a1 a2 : Aircraft) : ℝ × ℝ :=
  let ad := vturn a1.groundTrack
  let bd := vturn a2.groundTrack
  let dx := a2.position.1 - a1.position.1
  let dy := a2.position.2 - a1.position.2
  let det := convergenceDet a1 a2
  ((dy * bd.1 - dx * bd.2) / det, (dy * ad.1 - dx * ad.2) / det)

/-- The "Passing & Diverging" rules (source lines 226-257), applied to the
provisional `conflict` / `violation` pair. -/
def passingDiverging (env : Env) (distance_delta : ℝ) (conflict violation : Bool) :
    Bool × Bool :=
  if conflict then
    let hdg_difference :=
      |angle_offset env.aircraft0.groundTrack env.aircraft1.groundTrack|
    if degreesToRadians 15 ≤ hdg_difference then
      if degreesToRadians 165 < hdg_difference then
        if 0 < distance_delta then (false, false) else (conflict, violation)
      else
        if (rayParams env.aircraft0 env.aircraft1).1 < 0 ∨
            (rayParams env.aircraft0 env.aircraft1).2 < 0 then (false, false)
        else (conflict, violation)
    else (conflict, violation)
  else (conflict, violation)

/-- `checkProximity()` (source lines 172-264).  The vertical-separation gate at
lines 174-178 writes `conflicts.proximityConflict` and
`conflicts.proximityViolation` (sic, both on the `conflicts` object) and
returns.  `none` models the TypeError on a missing runway-relationship
metadata entry. -/
def checkProximity (env : Env) (s : Tracker) : Option Tracker :=
  if 1000 ≤ s.altitude then
    some { s with conflicts :=
      { s.conflicts with proximityConflict := false, proximityViolation := false } }
  else
    match latSepParams env with
    | none => none
    | some (applicableLatSepMin, disableNotices) =>
      let violation : Bool := if s.distance < applicableLatSepMin then true else false
      let conflict : Bool :=
        if (s.distance < applicableLatSepMin + 1.852 ∧ ¬disableNotices) ∨
            violation = true then true else false
      let cv := passingDiverging env s.distance_delta conflict violation
      some { s with
        conflicts := { s.conflicts with proximityConflict := cv.1 },
        violations := { s.violations with proximityViolation := cv.2 } }

/-- `remove()` (source lines 101-104): deregister the pair from both aircraft. -/
def removeEffects : List Effect :=
  [Effect.removeConflict 0 1, Effect.removeConflict 1 0]

/-- `update()` (source lines 65-96).  Note the just-departed gate at lines
90-91 tests `game_time() - this.aircraft[0].takeoffTime < 60` twice (both
disjuncts read `aircraft[0]`).  `none` models a TypeError propagating out of
`checkProximity()`. -/
def update (env : Env) (s : Tracker) : Option (Tracker × List Effect) :=
  if s.collided then some (s, [])
  else
    let d := s.distance
    let s1 := { s with
      distance := vlen (vsub env.aircraft0.position env.aircraft1.position) }
    let s2 := { s1 with distance_delta := s1.distance - d }
    let s3 := { s2 with altitude := |env.aircraft0.altitude - env.aircraft1.altitude| }
    if 14.816 < s3.distance then some (s3, removeEffects)
    else
      let r1 := checkCollision env s3
      let r2 := checkRunwayCollision env r1.1
      if (env.aircraft0.altitude - env.elevation < 990) ∨
          (env.aircraft1.altitude - env.elevation < 990) then
        some (r2.1, r1.2 ++ r2.2)
      else if (env.gameTime - env.aircraft0.takeoffTime < 60) ∨
          (env.gameTime - env.aircraft0.takeoffTime < 60) then
        some (r2.1, r1.2 ++ r2.2)
      else
        match checkProximity env r2.1 with
        | none => none
        | some s5 => some (s5, r1.2 ++ r2.2)

/-! ## Concrete test fixtures -/

/-- A baseline airborne aircraft: at the origin, 2000 ft, tracking north,
airborne since t = 0, no precision guidance, no assigned runways. -/
def acBase : Aircraft :=
  { position := (0, 0), altitude := 2000, groundTrack := 0, callsign := "AAL123",
    takeoffTime := 0, isPrecisionGuided := false, isLanded := false,
    isVisible := true, isTaxiing := false, rwy_arr := none, rwy_dep := none }

/-- A baseline environment: both aircraft `acBase`, field elevation 0, no
runways, every runway lookup and metadata lookup empty, game time 1000 s. -/
def envBase : Env :=
  { aircraft0 := acBase, aircraft1 := acBase, elevation := 0, runways := [],
    getRunway := fun _ => none, rwyMetadata := fun _ _ => none, gameTime := 1000 }

/-- Tracker with 1200 ft vertical separation and a stale proximity violation
left over from a previous tick. -/
def stC1 : Tracker :=
  { distance := 3, distance_delta := 0, altitude := 1200, collided := false,
    conflicts := { runwayCollision := false, proximityConflict := true,
                   proximityViolation := false },
    violations := { proximityViolation := true } }

/-- Aircraft 0 for the just-departed test: long airborne (takeoff at t = 0),
landed and taxiing flags set so that the collision and runway checks are
skipped/trivial. -/
def acC2a : Aircraft :=
  { acBase with isLanded := true, isTaxiing := true }

/-- Aircraft 1 for the just-departed test: took off at t = 970, i.e. 30 s
before game time 1000, 4 km east of aircraft 0 at 1500 ft. -/
def acC2b : Aircraft :=
  { acBase with position := (4, 0), altitude := 1500, takeoffTime := 970 }

/-- Environment for the just-departed test. -/
def envC2 : Env := { envBase with aircraft0 := acC2a, aircraft1 := acC2b }

/-- A fresh tracker state for the just-departed test. -/
def stC2 : Tracker :=
  { distance := 4, distance_delta := 0, altitude := 500, collided := false,
    conflicts := {}, violations := {} }

/-- A tracker already marked collided. -/
def stC3 : Tracker :=
  { distance := 4, distance_delta := 0, altitude := 500, collided := true,
    conflicts := {}, violations := {} }

/-- Precision-guided arrival to runway 28L. -/
def acC4a : Aircraft := { acBase with isPrecisionGuided := true, rwy_arr := some "28L" }

/-- Precision-guided arrival to runway 28R. -/
def acC4b : Aircraft := { acBase with isPrecisionGuided := true, rwy_arr := some "28R" }

/-- Environment with two precision-guided arrivals to different runways and an
empty runway-relationship metadata table. -/
def envC4 : Env := { envBase with aircraft0 := acC4a, aircraft1 := acC4b }

/-- Tracker with 500 ft vertical separation at 3 km. -/
def stC4 : Tracker :=
  { distance := 3, distance_delta := 0, altitude := 500, collided := false,
    conflicts := {}, violations := {} }

/-- Aircraft with assigned departure runway 18L which the airport's runway
lookup does not resolve. -/
def acC5a : Aircraft := { acBase with rwy_dep := some "18L" }

/-- Aircraft with assigned departure runway 22R which the airport's runway
lookup does not resolve. -/
def acC5b : Aircraft := { acBase with rwy_dep := some "22R" }

/-- Environment in which both departure-runway lookups fail (`getRunway`
returns `none` for every identifier). -/
def envC5 : Env := { envBase with aircraft0 := acC5a, aircraft1 := acC5b }

/-- Tracker at 5 km separation with no active runway-collision conflict. -/
def stC5 : Tracker :=
  { distance := 5, distance_delta := 0, altitude := 500, collided := false,
    conflicts := {}, violations := {} }

/-- Aircraft 15 km east of the origin. -/
def acC6b : Aircraft := { acBase with position := (15, 0) }

/-- Environment whose two aircraft are 15 km apart. -/
def envC6 : Env := { envBase with aircraft1 := acC6b }

/-- A live tracker about to observe the 15 km separation. -/
def stC6 : Tracker :=
  { distance := 10, distance_delta := 0, altitude := 0, collided := false,
    conflicts := { runwayCollision := true, proximityConflict := true },
    violations := { proximityViolation := true } }

/-- Tracker at 0.04 km horizontal and 150 ft vertical separation. -/
def stC7 : Tracker :=
  { distance := 0.04, distance_delta := 0, altitude := 150, collided := false,
    conflicts := {}, violations := {} }

/-- Aircraft tracking east (ground track π/2) from (-5, 2): its ray crosses
the northbound ray of `acBase` ahead of both aircraft. -/
def acC9b : Aircraft :=
  { acBase with groundTrack := Real.pi / 2, position := (-5, 2) }

/-- Environment with crossing courses 90° apart. -/
def envC9 : Env := { envBase with aircraft1 := acC9b }

/-! ## Helper lemmas -/

/-- Horizontal distance of two points on the x-axis. -/
theorem vlen_vsub_x_axis (x y : ℝ) : vlen (vsub (x, 0) (y, 0)) = |x - y| := by
  simp only [vlen, vsub]
  rw [show (x - y) ^ 2 + ((0 : ℝ) - 0) ^ 2 = (x - y) ^ 2 by ring,
    Real.sqrt_sq_eq_abs]

/-- The angle offset of a heading against itself vanishes. -/
theorem angle_offset_self (a : ℝ) : angle_offset a a = 0 := by
  simp [angle_offset]

/-- The angle offset from north (0) to east (π/2). -/
theorem angle_offset_north_east : angle_offset 0 (Real.pi / 2) = -(Real.pi / 2) := by
  have hπ := Real.pi_ne_zero
  have h1 : (0 - Real.pi / 2) / (2 * Real.pi) = -(1 / 4) := by
    rw [div_eq_iff (mul_ne_zero two_ne_zero hπ)]
    ring
  have h2 : round (-(1 / 4) : ℝ) = 0 := by
    rw [round_eq, show (-(1 / 4) : ℝ) + 1 / 2 = 1 / 4 by norm_num,
      Int.floor_eq_zero_iff]
    constructor <;> norm_num
  rw [angle_offset, h1, h2]
  push_cast
  ring

/-! ## Theorems -/

/-- C1: the claim fails on the code.  With vertical separation 1200 ft (≥ 1000)
and a stale `violations.proximityViolation = true` from a prior tick,
`checkProximity` clears `conflicts.proximityConflict` (and writes a
`proximityViolation` key on the `conflicts` object, source line 176) but leaves
`violations.proximityViolation` at its prior value `true`, whereas the claim
says it is left false regardless of prior values. -/
theorem checkProximity_vertical_gate_keeps_stale_violation :
    (checkProximity envBase stC1).map
        (fun s => (s.conflicts.proximityConflict, s.violations.proximityViolation))
      = some (false, true) := by
  rw [checkProximity, if_pos (by norm_num [stC1])]
  simp [stC1]

/-- C3: if `collided` is already true, `update` returns the tracker state
unchanged and issues no side effect at all. -/
theorem update_frozen_when_collided (env : Env) (s : Tracker)
    (h : s.collided = true) : update env s = some (s, []) := by
  rw [update, if_pos (by simp [h])]

/-- Witness for C3 at the concrete collided tracker `stC3`. -/
theorem update_frozen_when_collided_witness :
    update envBase stC3 = some (stC3, []) :=
  update_frozen_when_collided envBase stC3 rfl

/-- C4: the claim's "rather than faulting" fails on the code.  With both
aircraft precision-guided onto different arrival runways (28L / 28R) and no
runway-relationship metadata entry for the pair, the source reads `.parallel`
off `undefined` — a TypeError (modelled as `none`) — instead of falling
through to the 5.556 km baseline. -/
theorem checkProximity_missing_metadata_faults :
    checkProximity envC4 stC4 = none := by
  rw [checkProximity, if_neg (by norm_num [stC4])]
  rw [show latSepParams envC4 = none from ?_]
  rw [latSepParams, if_pos ?_]
  · simp [envC4, envBase]
  · refine ⟨⟨?_, ?_⟩, ?_⟩ <;> simp [envC4, acC4a, acC4b, acBase]

/-- C5: the claim's "even when both lookups fail" clause fails on the code.
With both departure runway identifiers assigned and distinct (18L / 22R), both
`getRunway` lookups returning no match, distance 5 km and neither aircraft
taxiing, JavaScript strict equality `null === null` satisfies the same-runway
test, so `conflicts.runwayCollision` is set to `true` and a notice and a
warning-counter increment are emitted — not the short-circuit to `false` the
claim asserts. -/
theorem checkRunwayCollision_fires_when_both_lookups_fail :
    (checkRunwayCollision envC5 stC5).1.conflicts.runwayCollision = true ∧
      Effect.scoreWarning ∈ (checkRunwayCollision envC5 stC5).2 := by
  rw [checkRunwayCollision, if_pos ?_, if_pos ?_]
  · simp
  · simp [stC5]
  · refine ⟨⟨?_, ?_⟩, ?_, ?_, ?_, ?_⟩
    · simp [envC5, acC5a, acBase]
    · simp [envC5, acC5b, acBase]
    · simp [envC5, acC5a, acBase]
    · simp [envC5, acC5a, acC5b, acBase]
    · simp [envC5, envBase]
    · norm_num [stC5]

/-- C6: for every non-collided tracker whose freshly recomputed horizontal
distance exceeds 14.816 km, `update` refreshes the geometric fields, issues
exactly the two `removeConflict` requests and performs no check: `collided`,
`conflicts` and `violations` are unchanged. -/
theorem update_bounding_box_exit (env : Env) (s : Tracker)
    (h : s.collided = false)
    (h2 : 14.816 < vlen (vsub env.aircraft0.position env.aircraft1.position)) :
    update env s = some
      ({ s with
          distance := vlen (vsub env.aircraft0.position env.aircraft1.position),
          distance_delta :=
            vlen (vsub env.aircraft0.position env.aircraft1.position) - s.distance,
          altitude := |env.aircraft0.altitude - env.aircraft1.altitude| },
        removeEffects) := by
  simp only [update, h, Bool.false_eq_true, if_false]
  rw [if_pos h2]

/-- Witness for C6: the first `update` on a 15 km pair requests removal. -/
theorem update_bounding_box_exit_witness :
    update envC6 stC6 = some
      ({ stC6 with
          distance := vlen (vsub envC6.aircraft0.position envC6.aircraft1.position),
          distance_delta :=
            vlen (vsub envC6.aircraft0.position envC6.aircraft1.position)
              - stC6.distance,
          altitude := |envC6.aircraft0.altitude - envC6.aircraft1.altitude| },
        removeEffects) :=
  update_bounding_box_exit envC6 stC6 rfl (by
    simp only [envC6, envBase, acC6b, acBase]
    rw [vlen_vsub_x_axis]
    norm_num)

/-- C7: starting from a not-yet-collided tracker, `checkCollision` ends with
`collided = true` exactly when neither aircraft is landed, horizontal distance
is under 0.05 km, vertical separation is under 160 ft and both aircraft are
visible. -/
theorem checkCollision_iff_thresholds (env : Env) (s : Tracker)
    (h : s.collided = false) :
    (checkCollision env s).1.collided = true ↔
      (env.aircraft0.isLanded = false ∧ env.aircraft1.isLanded = false ∧
        s.distance < 0.05 ∧ s.altitude < 160 ∧
        env.aircraft0.isVisible = true ∧ env.aircraft1.isVisible = true) := by
  rw [checkCollision]
  split_ifs with h1 h2
  · simp only [h, Bool.false_eq_true, false_iff]
    rcases h1 with h1 | h1 <;> simp [h1]
  · simp only [true_iff]
    simp only [not_or, Bool.not_eq_true] at h1
    exact ⟨h1.1, h1.2, h2.1.1, h2.1.2, h2.2.1, h2.2.2⟩
  · simp only [h, Bool.false_eq_true, false_iff]
    rintro ⟨-, -, c3, c4, c5, c6⟩
    exact h2 ⟨⟨c3, c4⟩, c5, c6⟩

/-- Witness for C7: distance 0.04 km, vertical separation 150 ft, both
visible and airborne yields a collision. -/
theorem checkCollision_iff_thresholds_witness :
    (checkCollision envBase stC7).1.collided = true :=
  (checkCollision_iff_thresholds envBase stC7 rfl).mpr
    (by refine ⟨rfl, rfl, ?_, ?_, rfl, rfl⟩ <;> norm_num [stC7])

/-- C8: the parallel-approach applicable lateral separation minimum follows
the spec's bands in the lateral distance (feet) between the runways, and the
2500 ft boundary belongs to the 1.852 km band (not the 5.556 km one). -/
theorem parallelLatSepMin_bands :
    (∀ f : ℝ, f < 2500 → parallelLatSepMin f = 5.556) ∧
    (∀ f : ℝ, 2500 ≤ f → f ≤ 3600 → parallelLatSepMin f = 1.852) ∧
    (∀ f : ℝ, 3600 < f → f ≤ 4300 → parallelLatSepMin f = 2.778) ∧
    (∀ f : ℝ, 4300 < f → f ≤ 9000 → parallelLatSepMin f = 3.704) ∧
    (∀ f : ℝ, 9000 < f → parallelLatSepMin f = 5.556) ∧
    parallelLatSepMin 2500 = 1.852 ∧ (1.852 : ℝ) ≠ 5.556 := by
  refine ⟨?_, ?_, ?_, ?_, ?_, ?_, by norm_num⟩
  · intro f h1
    rw [parallelLatSepMin, if_pos h1]
  · intro f h1 h2
    rw [parallelLatSepMin, if_neg (not_lt.mpr h1), if_pos ⟨h1, h2⟩]
  · intro f h1 h2
    rw [parallelLatSepMin, if_neg (by push_neg; linarith),
      if_neg (by rintro ⟨-, hh⟩; linarith), if_pos ⟨h1, h2⟩]
  · intro f h1 h2
    rw [parallelLatSepMin, if_neg (by push_neg; linarith),
      if_neg (by rintro ⟨-, hh⟩; linarith),
      if_neg (by rintro ⟨-, hh⟩; linarith), if_pos ⟨h1, h2⟩]
  · intro f h1
    rw [parallelLatSepMin, if_neg (by push_neg; linarith),
      if_neg (by rintro ⟨-, hh⟩; linarith),
      if_neg (by rintro ⟨-, hh⟩; linarith),
      if_neg (by rintro ⟨-, hh⟩; linarith), if_pos h1]
  · rw [parallelLatSepMin, if_neg (by norm_num), if_pos (by norm_num)]

/-- Witness for C8 at the band boundary: 2500 ft selects the 1.852 km
minimum. -/
theorem parallelLatSepMin_bands_witness : parallelLatSepMin 2500 = 1.852 :=
  parallelLatSepMin_bands.2.1 2500 le_rfl (by norm_num)

/-- C9: in the crossing-courses branch of the passing/diverging rules
(angular track difference between 15° and 165°, conflict provisionally true),
if both ray-intersection parameters are nonnegative the conflict stands, and
if either is negative both conflict and violation are cleared. -/
theorem passingDiverging_crossing_branch (env : Env) (dd : ℝ) (violation : Bool)
    (h1 : degreesToRadians 15 ≤
      |angle_offset env.aircraft0.groundTrack env.aircraft1.groundTrack|)
    (h2 : ¬degreesToRadians 165 <
      |angle_offset env.aircraft0.groundTrack env.aircraft1.groundTrack|) :
    ((0 ≤ (rayParams env.aircraft0 env.aircraft1).1 ∧
        0 ≤ (rayParams env.aircraft0 env.aircraft1).2) →
      passingDiverging env dd true violation = (true, violation)) ∧
    (((rayParams env.aircraft0 env.aircraft1).1 < 0 ∨
        (rayParams env.aircraft0 env.aircraft1).2 < 0) →
      passingDiverging env dd true violation = (false, false)) := by
  rw [passingDiverging]
  simp only [if_pos h1, if_neg h2, if_true]
  constructor
  · intro h
    rw [if_neg (by push_neg; exact h)]
  · intro h
    rw [if_pos h]

/-- Witness for C9: tracks 90° apart (north versus east) with the eastbound
aircraft south-west of the crossing point gives ray parameters (2, 5), so the
conflict stands. -/
theorem passingDiverging_crossing_branch_witness :
    passingDiverging envC9 0 true false = (true, false) :=
  (passingDiverging_crossing_branch envC9 0 false
    (by
      have hko : envC9.aircraft0.groundTrack = 0 := rfl
      have hke : envC9.aircraft1.groundTrack = Real.pi / 2 := rfl
      rw [hko, hke, angle_offset_north_east, abs_neg,
        abs_of_pos (by positivity), degreesToRadians]
      have := Real.pi_pos
      linarith)
    (by
      have hko : envC9.aircraft0.groundTrack = 0 := rfl
      have hke : envC9.aircraft1.groundTrack = Real.pi / 2 := rfl
      rw [hko, hke, angle_offset_north_east, abs_neg,
        abs_of_pos (by positivity), degreesToRadians, not_lt]
      have := Real.pi_pos
      linarith)).1
    (by
      have hr : rayParams envC9.aircraft0 envC9.aircraft1 = (2, 5) := by
        simp only [rayParams, convergenceDet, vturn]
        have hko : envC9.aircraft0.groundTrack = 0 := rfl
        have hke : envC9.aircraft1.groundTrack = Real.pi / 2 := rfl
        have hpo : envC9.aircraft0.position = ((0 : ℝ), (0 : ℝ)) := rfl
        have hpe : envC9.aircraft1.position = ((-5 : ℝ), (2 : ℝ)) := rfl
        rw [hko, hke, hpo, hpe, Real.sin_zero, Real.cos_zero,
          Real.sin_pi_div_two, Real.cos_pi_div_two]
        norm_num
      rw [hr]
      norm_num)

/-- C10: whenever the normalized angular difference between the two ground
tracks lies in [15°, 165°], the determinant of the two unit track-direction
vectors is nonzero, so the ray-parameter divisions never divide by zero. -/
theorem convergenceDet_ne_zero_in_crossing_band (a1 a2 : Aircraft)
    (h1 : degreesToRadians 15 ≤ |angle_offset a1.groundTrack a2.groundTrack|)
    (h2 : |angle_offset a1.groundTrack a2.groundTrack| ≤ degreesToRadians 165) :
    convergenceDet a1 a2 ≠ 0 := by
  have hpi := Real.pi_pos
  rw [degreesToRadians] at h1 h2
  set t1 := a1.groundTrack with ht1
  set t2 := a2.groundTrack with ht2
  set o := angle_offset t1 t2 with ho
  have hdet : convergenceDet a1 a2 = -Real.sin o := by
    have hsplit : t1 - t2
        = o + (round ((t1 - t2) / (2 * Real.pi)) : ℤ) * (2 * Real.pi) := by
      rw [ho, angle_offset]
      ring
    calc convergenceDet a1 a2
        = Real.sin t2 * Real.cos t1 - Real.cos t2 * Real.sin t1 := by
          simp only [convergenceDet, vturn, ← ht1, ← ht2]
      _ = Real.sin (t2 - t1) := (Real.sin_sub t2 t1).symm
      _ = -Real.sin (t1 - t2) := by rw [← Real.sin_neg, neg_sub]
      _ = -Real.sin o := by rw [hsplit, Real.sin_add_int_mul_two_pi]
  have habs : 0 < Real.sin |o| := by
    apply Real.sin_pos_of_pos_of_lt_pi
    · nlinarith
    · nlinarith
  rw [hdet, neg_ne_zero]
  rcases abs_cases o with ⟨heq, -⟩ | ⟨heq, -⟩
  · rw [← heq]
    exact ne_of_gt habs
  · rw [heq, Real.sin_neg] at habs
    intro hc
    rw [hc] at habs
    norm_num at habs

/-- Witness for C10: ground tracks north and east (difference 90°) give a
nonzero determinant. -/
theorem convergenceDet_ne_zero_in_crossing_band_witness :
    convergenceDet acBase acC9b ≠ 0 :=
  convergenceDet_ne_zero_in_crossing_band acBase acC9b
    (by
      have hko : acBase.groundTrack = 0 := rfl
      have hke : acC9b.groundTrack = Real.pi / 2 := rfl
      rw [hko, hke, angle_offset_north_east, abs_neg,
        abs_of_pos (by positivity), degreesToRadians]
      have := Real.pi_pos
      linarith)
    (by
      have hko : acBase.groundTrack = 0 := rfl
      have hke : acC9b.groundTrack = Real.pi / 2 := rfl
      rw [hko, hke, angle_offset_north_east, abs_neg,
        abs_of_pos (by positivity), degreesToRadians]
      have := Real.pi_pos
      linarith)

/-- C2: the claim fails on the code.  At game time 1000 s, aircraft 1 has been
airborne for only 30 s (takeoff at 970), yet `update` does not return at the
just-departed gate — both disjuncts of the gate test aircraft 0's takeoff time
(source lines 90-91) — and `checkProximity` runs, recording a proximity
violation at 4 km separation, where the claim says the method returns without
calling `checkProximity`. -/
theorem update_ignores_second_aircraft_takeoff_time :
    envC2.gameTime - envC2.aircraft1.takeoffTime < 60 ∧
      (update envC2 stC2).map (fun p => p.1.violations.proximityViolation)
        = some true := by
  constructor
  · norm_num [envC2, envBase, acC2b, acBase]
  · have hd : vlen (vsub envC2.aircraft0.position envC2.aircraft1.position) = 4 := by
      have hpo : envC2.aircraft0.position = ((0 : ℝ), (0 : ℝ)) := rfl
      have hpe : envC2.aircraft1.position = ((4 : ℝ), (0 : ℝ)) := rfl
      rw [hpo, hpe, vlen_vsub_x_axis]
      norm_num
    have habs500 : |(500 : ℝ)| = 500 := abs_of_nonneg (by norm_num)
    have hgate : ¬degreesToRadians 15 ≤
        |angle_offset envC2.aircraft0.groundTrack envC2.aircraft1.groundTrack| := by
      have h0 : envC2.aircraft0.groundTrack = 0 := rfl
      have h1 : envC2.aircraft1.groundTrack = 0 := rfl
      rw [h0, h1, angle_offset_self, abs_zero, degreesToRadians, not_le]
      positivity
    have e1 : envC2.aircraft0.isLanded = true := rfl
    have e2 : envC2.aircraft0.isTaxiing = true := rfl
    have e3 : envC2.aircraft0.altitude = 2000 := rfl
    have e4 : envC2.aircraft1.altitude = 1500 := rfl
    have e5 : envC2.elevation = 0 := rfl
    have e6 : envC2.gameTime = 1000 := rfl
    have e7 : envC2.aircraft0.takeoffTime = 0 := rfl
    have e8 : envC2.aircraft0.isPrecisionGuided = false := rfl
    norm_num [update, checkCollision, checkRunwayCollision, checkProximity,
      latSepParams, passingDiverging, hd, habs500, hgate, stC2,
      e1, e2, e3, e4, e5, e6, e7, e8]

end OpenScope
